import Mathlib

/-!
Verification of the carousel-PDF generation pipeline of
src/api/services/media_generator.py (class MediaGenerator).

The Python functions are shallowly embedded as Lean functions.  External
collaborators (the reportlab stringWidth metric, the Imagen image service, the
Gemini translation and condensing calls, and the PIL thumbnail operation) are
passed in as explicit oracles, matching the call boundaries of the source.
Mutable global state (the random module generator) is threaded explicitly.
-/

namespace CarouselPdf

/-- Characters treated as whitespace by the embedding of Python strip and split. -/
def isSpaceChar (c : Char) : Bool := c = ' ' || c = '\n' || c = '\t' || c = '\r'

/-- Embeds Python str.strip on a character list. -/
def trimChars (cs : List Char) : List Char :=
  ((cs.dropWhile isSpaceChar).reverse.dropWhile isSpaceChar).reverse

/-- Embeds Python str.strip. -/
def trimS (s : String) : String := String.mk (trimChars s.data)

/-- Embeds Python str.split(sep) for a one-character separator. -/
def splitChar (sep : Char) : List Char → List (List Char)
  | [] => [[]]
  | c :: rest =>
    if c = sep then [] :: splitChar sep rest
    else
      match splitChar sep rest with
      | [] => [[c]]
      | l :: ls => (c :: l) :: ls

/-- Embeds the Python substring test needle in hay. -/
def charsContains (needle : List Char) : List Char → Bool
  | [] => needle.isEmpty
  | c :: rest => needle.isPrefixOf (c :: rest) || charsContains needle rest

/-- Embeds the Python membership test needle in hay for strings. -/
def strContains (hay needle : String) : Bool := charsContains needle.data hay.data

/-- Embeds Python str.lower (restricted to the char-wise case mapping). -/
def strToLower (s : String) : String := String.mk (s.data.map Char.toLower)

/-- Embeds Python str.startswith. -/
def pyStartsWith (s p : String) : Bool := p.data.isPrefixOf s.data

/-- Embeds the Python slice s[:n]. -/
def takeChars (s : String) (n : Nat) : String := String.mk (s.data.take n)

/-- Accumulator loop for pyWords. -/
def splitWSAux : List Char → List Char → List (List Char)
  | [], acc => if acc.isEmpty then [] else [acc.reverse]
  | c :: rest, acc =>
    if isSpaceChar c then
      if acc.isEmpty then splitWSAux rest []
      else acc.reverse :: splitWSAux rest []
    else splitWSAux rest (c :: acc)

/-- Embeds Python str.split() with no argument: split on whitespace runs, dropping empties. -/
def pyWords (s : String) : List String := (splitWSAux s.data []).map String.mk

/-- Embeds the Python join of words by a single space. -/
def joinSpace : List String → String
  | [] => ""
  | [w] => w
  | w :: ws => w ++ " " ++ joinSpace ws

/-- Concatenation of a list of word lists. -/
def concatAll : List (List String) → List String
  | [] => []
  | l :: ls => l ++ concatAll ls

/-- Embeds one slide record of generate_carousel_pdf; a dict key that is absent is the empty string. -/
structure Slide where
  title : String
  content : String
  content_en : String
  content_es : String
deriving DecidableEq

/-- One RGB color of the reportlab color schemes, stored in hundredths of the 0..1 floats of the source. -/
structure Rgb where
  r : Nat
  g : Nat
  b : Nat
deriving DecidableEq

/-- Embeds one entry of the styles dict of generate_carousel_pdf. -/
structure ColorScheme where
  bg : Rgb
  accent : Rgb
  textColor : Rgb
  secondary : Rgb
deriving DecidableEq

/-- Embeds styles["professional"]. -/
def professionalScheme : ColorScheme :=
  ⟨⟨12, 12, 12⟩, ⟨29, 62, 100⟩, ⟨100, 100, 100⟩, ⟨80, 80, 80⟩⟩

/-- Embeds the styles dict of generate_carousel_pdf. -/
def stylesTable : List (String × ColorScheme) :=
  [("professional", professionalScheme),
   ("relaxed", ⟨⟨95, 94, 92⟩, ⟨40, 70, 50⟩, ⟨20, 20, 20⟩, ⟨40, 40, 40⟩⟩),
   ("corporate", ⟨⟨5, 8, 15⟩, ⟨0, 40, 70⟩, ⟨100, 100, 100⟩, ⟨70, 70, 70⟩⟩),
   ("creative", ⟨⟨15, 5, 20⟩, ⟨90, 30, 60⟩, ⟨100, 100, 100⟩, ⟨90, 90, 90⟩⟩),
   ("minimal", ⟨⟨100, 100, 100⟩, ⟨0, 0, 0⟩, ⟨0, 0, 0⟩, ⟨50, 50, 50⟩⟩)]

/-- Embeds styles.get(style, styles["professional"]). -/
def colorSchemeFor (style : String) : ColorScheme :=
  (stylesTable.lookup style).getD professionalScheme

/-- Embeds the style_descriptors dict of generate_carousel_pdf. -/
def styleDescTable : List (String × String) :=
  [("professional", "clean, modern, professional business"),
   ("relaxed", "warm, natural, organic"),
   ("corporate", "sleek, corporate, executive"),
   ("creative", "vibrant, artistic, creative"),
   ("minimal", "minimalist, simple, clean")]

/-- Embeds style_descriptors.get(style, the string professional). -/
def styleDescFor (style : String) : String :=
  (styleDescTable.lookup style).getD "professional"

/-- The five style names of the styles dict. -/
def styleNames : List String :=
  ["professional", "relaxed", "corporate", "creative", "minimal"]

/-- Embeds the cover image prompt built in generate_carousel_pdf. -/
def coverPrompt (style title : String) : String :=
  let t := if title.length ≤ 70 then title else takeChars title 70
  "Photorealistic, " ++ styleDescFor style ++
    " aesthetic, high-quality image representing: " ++ t ++
    ". 16:9 aspect ratio, no text or words in image."

/-- Embeds the per-slide image prompt built in generate_carousel_pdf. -/
def slidePrompt (style : String) (s : Slide) : String :=
  let sc := if s.content_en ≠ "" then s.content_en else s.content
  let topic := if s.title ≠ "" then s.title else takeChars sc 80
  "Photorealistic, " ++ styleDescFor style ++
    " aesthetic, high-quality image for: " ++ topic ++
    ". Professional, clean, no text or words in image."

/-- Embeds the carousel-level bilingual check: only slide 0 is inspected. -/
def isBilingualCarousel : List Slide → Bool
  | [] => false
  | s :: _ => (s.content_en != "") && (s.content_es != "")

/-- Embeds the removal of asterisks performed in _create_summary_title. -/
def stripStars (s : String) : String := String.mk (s.data.filter (fun c => c ≠ '*'))

/-- Embeds one label-removal step of _create_summary_title. -/
def stripLabel (p : String) (s : String) : String :=
  if pyStartsWith s p then trimS (String.mk (s.data.drop p.data.length)) else s

/-- Embeds the label list of _create_summary_title. -/
def condenseLabels : List String := ["Title:", "Condensed:", "Condensed title:"]

/-- Embeds the label-stripping loop of _create_summary_title. -/
def stripAllLabels (s : String) : String :=
  condenseLabels.foldl (fun acc p => stripLabel p acc) s

/-- Embeds the greedy character-budget truncation loop of _create_summary_title. -/
def takeWordsWithin (maxChars : Nat) : List String → Nat → List String
  | [], _ => []
  | w :: ws, len =>
    if len + w.length + 1 ≤ maxChars then w :: takeWordsWithin maxChars ws (len + w.length + 1)
    else []

/-- Embeds the first-sentence fallback of _create_summary_title: the text before the first period, question mark or exclamation mark. -/
def firstClause (text : String) : String :=
  String.mk (text.data.takeWhile (fun c => c ≠ '.' && c ≠ '?' && c ≠ '!'))

/-- Embeds _create_summary_title; the condense oracle stands for the Gemini call, none standing for a raised exception. -/
def createSummaryTitle (condense : String → Nat → Option String) (text : String)
    (maxChars : Nat) : String :=
  if trimS text = "" then "Key Insight"
  else if (trimS text).length ≤ maxChars then trimS text
  else
    match condense text maxChars with
    | some c0 =>
      let c1 := stripAllLabels (trimS (stripStars c0))
      if c1.length > maxChars then joinSpace (takeWordsWithin maxChars (pyWords c1) 0) else c1
    | none =>
      let fs := firstClause text
      if fs.length > maxChars then joinSpace ((pyWords fs).take 6) else fs

/-- Embeds the greedy word-wrap loop shared by _wrap_title and the inline slide-title wrap; lines are kept as word lists. -/
def wrapWordsAux (sw : String → Nat) (maxW : Nat) : List String → List String → List (List String)
  | [], curr => if curr.isEmpty then [] else [curr]
  | w :: ws, curr =>
    if sw (joinSpace (curr ++ [w])) ≤ maxW then wrapWordsAux sw maxW ws (curr ++ [w])
    else if curr.isEmpty then wrapWordsAux sw maxW ws [w]
    else curr :: wrapWordsAux sw maxW ws [w]

/-- Embeds _wrap_title (the cover-title wrap): every produced line is kept. -/
def wrapTitle (sw : String → Nat) (maxW : Nat) (text : String) : List String :=
  let ls := (wrapWordsAux sw maxW (pyWords text) []).map joinSpace
  if ls.isEmpty then [text] else ls

/-- Embeds the inline slide-title wrap of generate_carousel_pdf: a single line when the whole title fits 520 pixels. -/
def slideTitleWrap (sw : String → Nat) (title : String) : List String :=
  if sw title ≤ 520 then [title]
  else (wrapWordsAux sw 520 (pyWords title) []).map joinSpace

/-- Greedy first line used by the cover Spanish-subtitle wrap. -/
def firstFitLine (sw : String → Nat) (maxW : Nat) : List String → List String →
    List String × List String
  | [], acc => (acc, [])
  | w :: ws, acc =>
    if sw (joinSpace (acc ++ [w])) ≤ maxW then firstFitLine sw maxW ws (acc ++ [w])
    else (acc, w :: ws)

/-- Embeds the cover Spanish-subtitle wrap: one greedy first line, the whole remainder as line two, nonempty lines only. -/
def esSubtitleLines (sw : String → Nat) (t : String) : List String :=
  if sw t ≤ 550 then [t]
  else
    let p := firstFitLine sw 550 (pyWords t) []
    (if p.1.isEmpty then [] else [joinSpace p.1]) ++
      (if p.2.isEmpty then [] else [joinSpace p.2])

/-- Embeds the inner loop of _wrap_text. -/
def wrapTextAux (maxC : Nat) : List String → String → List String
  | [], curr => if curr = "" then [] else [curr]
  | w :: ws, curr =>
    if curr.length + w.length + 1 ≤ maxC then wrapTextAux maxC ws (curr ++ w ++ " ")
    else if curr = "" then wrapTextAux maxC ws (w ++ " ")
    else curr :: wrapTextAux maxC ws (w ++ " ")

/-- Embeds _wrap_text. -/
def wrapText (text : String) (maxC : Nat) : List String :=
  if trimS text = "" then [" "]
  else
    concatAll ((splitChar '\n' text.data).map (fun raw =>
      let ws := (splitWSAux raw []).map String.mk
      if ws.isEmpty then [" "] else wrapTextAux maxC ws ""))

/-- Embeds the replace of period-space by period-newline in _format_as_bullets. -/
def replaceDotSpace : List Char → List Char
  | [] => []
  | '.' :: ' ' :: rest => '.' :: '\n' :: replaceDotSpace rest
  | c :: rest => c :: replaceDotSpace rest

/-- The terminal punctuation set tested by _format_as_bullets. -/
def terminalChar (c : Char) : Bool := c = '.' || c = '!' || c = '?' || c = ';'

/-- Embeds the Python endswith test of _format_as_bullets. -/
def endsTerminal (s : String) : Bool :=
  match s.data.getLast? with
  | some c => terminalChar c
  | none => false

/-- Embeds _format_as_bullets. -/
def formatAsBullets (text : String) : List String :=
  if trimS text = "" then []
  else
    (((splitChar '\n' (replaceDotSpace text.data)).map (fun l => String.mk (trimChars l))).filterMap
      (fun l => if l.length > 10 then some (if endsTerminal l then l else l ++ ".") else none)).take 10

/-- Split on any sentence terminator or newline, as the spec describes the bullet split. -/
def splitAnyTerm : List Char → List (List Char)
  | [] => [[]]
  | c :: rest =>
    if c = '.' || c = '!' || c = '?' || c = '\n' then [] :: splitAnyTerm rest
    else
      match splitAnyTerm rest with
      | [] => [[c]]
      | l :: ls => (c :: l) :: ls

/-- Modelled from the spec: content is split on sentence terminators (period, exclamation mark, question mark) and newlines into units, each kept unit (minimum length 10) padded to end with terminal punctuation, capped at 10 units.  Used only to compare the wording of the spec with _format_as_bullets. -/
def specFormatAsBullets (text : String) : List String :=
  (((splitAnyTerm text.data).map (fun l => String.mk (trimChars l))).filterMap
    (fun l => if 10 ≤ l.length then some (if endsTerminal l then l else l ++ ".") else none)).take 10

example : formatAsBullets "Is this real? Absolutely certain." =
    ["Is this real? Absolutely certain."] := by decide

example : specFormatAsBullets "Is this real? Absolutely certain." =
    ["Is this real.", "Absolutely certain."] := by decide

example : pyWords "  hello   there world " = ["hello", "there", "world"] := by decide

example : formatAsBullets "Revenue grew fast. Margins improved a lot. Ok." =
    ["Revenue grew fast.", "Margins improved a lot."] := by decide

/-- Embeds the line parsing of the batch translation result: strip the whole result, split on newlines, strip each line, keep nonempty lines. -/
def parseLines (res : String) : List String :=
  ((splitChar '\n' (trimChars res.data)).map (fun l => String.mk (trimChars l))).filter
    (fun l => l ≠ "")

/-- Embeds the collection of translatable slide titles: nonempty and not an auto-generated Key Point label. -/
def eligibleTitles (slides : List Slide) : List String :=
  slides.filterMap (fun s =>
    if s.title ≠ "" ∧ pyStartsWith s.title "Key Point" = false then some s.title else none)

/-- Embeds the positional assignment of translated lines to slide indices: line 0 is the cover, lines from 1 are handed to eligible slides in order while lines remain. -/
def assignEs : List Slide → Nat → Nat → List String → List (Nat × String)
  | [], _, _, _ => []
  | s :: rest, idx, tIdx, lines =>
    if s.title ≠ "" ∧ pyStartsWith s.title "Key Point" = false ∧ tIdx < lines.length then
      (idx, lines.getD tIdx "") :: assignEs rest (idx + 1) (tIdx + 1) lines
    else assignEs rest (idx + 1) tIdx lines

/-- Embeds the batched-title-translation phase of generate_carousel_pdf.  The Except input stands for the external Gemini call, error standing for a raised exception, which the source catches.  The first component records whether the external call was issued at all. -/
def translationPhase (bilingual : Bool) (coverTitle : String) (slides : List Slide)
    (svc : Except String String) : Bool × String × List (Nat × String) :=
  if bilingual then
    match svc with
    | Except.error _ => (true, coverTitle, [])
    | Except.ok res =>
      let lines := parseLines res
      (true, lines.headD coverTitle, assignEs slides 0 1 lines)
  else (false, "", [])

/-- Bytes produced by generate_realistic_image: either the external Imagen payload or the fixed fallback gradient built in its except branch (the fallback takes no style argument in the source). -/
inductive ImgBytes
  | external (w h : Nat) (id : Nat)
  | fallbackGradient
deriving DecidableEq

/-- Pixel dimensions of the produced bytes; the fallback gradient is created at 1200 by 675. -/
def ImgBytes.dims : ImgBytes → Nat × Nat
  | .external w h _ => (w, h)
  | .fallbackGradient => (1200, 675)

/-- Outcome of one raw Imagen request (or of the surrounding request code) inside generate_realistic_image. -/
inductive ExtResult
  | ok (b : ImgBytes)
  | err (msg : String)
deriving DecidableEq

/-- Embeds the quota signature tested in the except branch of generate_realistic_image. -/
def imagenSig (m : String) : Bool :=
  strContains m "429" || strContains (strToLower m) "quota" || strContains m "RESOURCE_EXHAUSTED"

/-- Embeds the quota signature tested by the _gen_image worker. -/
def genImageSig (m : String) : Bool :=
  strContains m "429" || strContains (strToLower m) "quota"

/-- Embeds generate_realistic_image: quota-signature failures are re-raised for the caller to retry, any other failure returns the fixed 1200x675 gradient fallback instead of raising. -/
def generateRealisticImage (x : ExtResult) : Except String ImgBytes :=
  match x with
  | ExtResult.ok b => Except.ok b
  | ExtResult.err m =>
    if imagenSig m then Except.error m else Except.ok ImgBytes.fallbackGradient

/-- Observable trace of one _gen_image worker: external calls made, sleep durations in seconds, and the resolved image if any. -/
structure GenImageTrace where
  calls : Nat
  sleeps : List Nat
  result : Option ImgBytes
deriving DecidableEq

/-- Embeds the retry loop of _gen_image from a given attempt index with the given remaining loop iterations; each iteration makes exactly one external call. -/
def genImageFrom (ext : Nat → ExtResult) (attempt : Nat) : Nat → GenImageTrace
  | 0 => ⟨0, [], none⟩
  | fuel + 1 =>
    match generateRealisticImage (ext attempt) with
    | Except.ok b => ⟨1, [], some b⟩
    | Except.error msg =>
      if genImageSig msg then
        let rest := genImageFrom ext (attempt + 1) fuel
        ⟨rest.calls + 1, 2 * (attempt + 1) :: rest.sleeps, rest.result⟩
      else ⟨1, [], none⟩

/-- Embeds _gen_image: for attempt in range(3), starting at attempt 0. -/
def genImageRun (ext : Nat → ExtResult) : GenImageTrace := genImageFrom ext 0 3

/-- Embeds the generated_images mapping filled from the worker pool: a key is present only when its worker returned an image. -/
def fetchAllResult (ext : String → Nat → ExtResult) (keys : List String) :
    List (String × ImgBytes) :=
  keys.filterMap (fun k => (genImageRun (ext k)).result.map (fun b => (k, b)))

/-- The letter page width in points. -/
def letterW : Nat := 612

/-- The letter page height in points. -/
def letterH : Nat := 792

/-- Embeds int(width * 0.65), the slide image box width. -/
def slideBoxW : Nat := letterW * 65 / 100

/-- Embeds int(height * 0.28), the slide image box height. -/
def slideBoxH : Nat := letterH * 28 / 100

/-- Embeds int(width * 0.85), the generated cover-gradient width. -/
def coverGenW : Nat := letterW * 85 / 100

/-- Embeds int(height * 0.38), the generated cover-gradient height. -/
def coverGenH : Nat := letterH * 38 / 100

/-- Embeds int(width * 0.85), the cover thumbnail bound. -/
def coverMaxW : Nat := letterW * 85 / 100

/-- Embeds int(height * 0.4), the cover thumbnail bound. -/
def coverMaxH : Nat := letterH * 40 / 100

/-- Models PIL Image.thumbnail: shrink to fit the box preserving aspect ratio, never upscale. -/
def thumbDims (w h maxW maxH : Nat) : Nat × Nat :=
  if w ≤ maxW ∧ h ≤ maxH then (w, h)
  else if maxW * h ≥ maxH * w then (max 1 (maxH * w / h), maxH)
  else (maxW, max 1 (maxW * h / w))

/-- Provenance of the image drawn on a page. -/
inductive ImgSrc
  | fetched (b : ImgBytes)
  | themed (style : String)
  | coverGrad (style : String)
deriving DecidableEq

/-- The image drawn on a page: its final dimensions and provenance. -/
structure PageImg where
  w : Nat
  h : Nat
  src : ImgSrc
deriving DecidableEq

/-- Embeds the slide-image resolution of generate_carousel_pdf: a fetched image is thumbnailed into the slide box, a missing key yields the themed gradient generated at exactly the box size (no thumbnail on that path). -/
def resolveSlideImg (style : String) (fetched : Option ImgBytes) : PageImg :=
  match fetched with
  | some b =>
    let d := thumbDims b.dims.1 b.dims.2 slideBoxW slideBoxH
    ⟨d.1, d.2, ImgSrc.fetched b⟩
  | none => ⟨slideBoxW, slideBoxH, ImgSrc.themed style⟩

/-- Embeds the cover-image resolution: a missing key yields the cover gradient generated at 85 percent width by 38 percent height, then either image is thumbnailed into the 85 by 40 percent box. -/
def resolveCoverImg (style : String) (fetched : Option ImgBytes) : PageImg :=
  match fetched with
  | some b =>
    let d := thumbDims b.dims.1 b.dims.2 coverMaxW coverMaxH
    ⟨d.1, d.2, ImgSrc.fetched b⟩
  | none =>
    let d := thumbDims coverGenW coverGenH coverMaxW coverMaxH
    ⟨d.1, d.2, ImgSrc.coverGrad style⟩

example : resolveCoverImg "minimal" none = ⟨520, 300, ImgSrc.coverGrad "minimal"⟩ := by decide

example : resolveSlideImg "minimal" none = ⟨397, 221, ImgSrc.themed "minimal"⟩ := by decide

/-- Models the in-process CPython string hash as a fixed deterministic function of the string alone. -/
def strHash (s : String) : Nat :=
  s.data.foldl (fun a c => (a * 31 + c.toNat) % 2 ^ 64) 7

/-- Models one state step of the random module generator. -/
def rngNext (s : Nat) : Nat := (6364136223846793005 * s + 1442695040888963407) % 2 ^ 64

/-- Models random.randint(lo, hi): consumes one generator state, returns a value in [lo, hi]. -/
def randintM (lo hi s : Nat) : Nat × Nat :=
  let s2 := rngNext s
  (lo + s2 % (hi + 1 - lo), s2)

/-- Draws n random circles, each consuming three randint calls, threading the generator state. -/
def drawCircles (lo1 hi1 lo2 hi2 lo3 hi3 : Nat) : Nat → Nat → List (Nat × Nat × Nat) × Nat
  | 0, s => ([], s)
  | n + 1, s =>
    let c1 := randintM lo1 hi1 s
    let c2 := randintM lo2 hi2 c1.2
    let c3 := randintM lo3 hi3 c2.2
    let rest := drawCircles lo1 hi1 lo2 hi2 lo3 hi3 n c3.2
    ((c1.1, c2.1, c3.1) :: rest.1, rest.2)

/-- Embeds the gradients dict of _generate_themed_gradient: start, end and accent colors in raw 0..255 components. -/
def themedPalettes : List (String × (Rgb × Rgb × Rgb)) :=
  [("professional", (⟨15, 25, 50⟩, ⟨30, 80, 160⟩, ⟨74, 158, 255⟩)),
   ("relaxed", (⟨220, 230, 215⟩, ⟨180, 210, 190⟩, ⟨102, 179, 128⟩)),
   ("corporate", (⟨10, 15, 35⟩, ⟨20, 50, 100⟩, ⟨0, 102, 179⟩)),
   ("creative", (⟨40, 10, 55⟩, ⟨80, 20, 100⟩, ⟨230, 77, 153⟩)),
   ("minimal", (⟨240, 240, 245⟩, ⟨220, 225, 235⟩, ⟨100, 100, 120⟩))]

/-- Embeds gradients.get(style, gradients["professional"]). -/
def themedPaletteFor (style : String) : Rgb × Rgb × Rgb :=
  (themedPalettes.lookup style).getD (⟨15, 25, 50⟩, ⟨30, 80, 160⟩, ⟨74, 158, 255⟩)

/-- Embeds the palettes dict of _generate_cover_gradient. -/
def coverPalettes : List (String × (Rgb × Rgb × Rgb × Rgb)) :=
  [("professional", (⟨8, 15, 40⟩, ⟨20, 60, 130⟩, ⟨45, 100, 200⟩, ⟨74, 158, 255⟩)),
   ("relaxed", (⟨200, 215, 195⟩, ⟨160, 195, 170⟩, ⟨120, 180, 140⟩, ⟨80, 160, 100⟩)),
   ("corporate", (⟨5, 10, 25⟩, ⟨15, 35, 80⟩, ⟨25, 60, 120⟩, ⟨0, 100, 180⟩)),
   ("creative", (⟨30, 5, 45⟩, ⟨65, 15, 85⟩, ⟨120, 30, 130⟩, ⟨230, 80, 160⟩)),
   ("minimal", (⟨245, 245, 250⟩, ⟨230, 232, 240⟩, ⟨210, 215, 228⟩, ⟨120, 125, 145⟩))]

/-- Embeds palettes.get(style, palettes["professional"]). -/
def coverPaletteFor (style : String) : Rgb × Rgb × Rgb × Rgb :=
  (coverPalettes.lookup style).getD
    (⟨8, 15, 40⟩, ⟨20, 60, 130⟩, ⟨45, 100, 200⟩, ⟨74, 158, 255⟩)

/-- Drawing parameters of a themed gradient image; the raster produced by the source is a deterministic function of these. -/
structure ThemedImg where
  w : Nat
  h : Nat
  colorStart : Rgb
  colorFinish : Rgb
  accent : Rgb
  circles : List (Nat × Nat × Nat)
  lineY : Nat
deriving DecidableEq

/-- Embeds _generate_themed_gradient as a function of the explicit random-module state.  Its first random action is random.seed(hash(style)), so the incoming state is overwritten before any draw; the three accent circles then consume randint calls from the reseeded state. -/
def themedGradientGen (style : String) (w h : Nat) (rng0 : Nat) : ThemedImg × Nat :=
  let _ := rng0
  let p := themedPaletteFor style
  let s0 := strHash style
  let cs := drawCircles (w * 10 / 100) (w * 90 / 100) (h * 10 / 100) (h * 90 / 100) 30 80 3 s0
  (⟨w, h, p.1, p.2.1, p.2.2, cs.1, h / 2⟩, cs.2)

/-- Drawing parameters of a cover gradient image; the curves of the source use only deterministic trigonometry, so the random draws are the five accent circles. -/
structure CoverImg where
  w : Nat
  h : Nat
  p1 : Rgb
  p2 : Rgb
  p3 : Rgb
  accent : Rgb
  circles : List (Nat × Nat × Nat)
deriving DecidableEq

/-- Embeds _generate_cover_gradient as a function of the explicit random-module state.  Its first random action is random.seed(hash(style) + 42), so the incoming state is overwritten; the five glass circles then consume randint calls from the reseeded state. -/
def coverGradientGen (style : String) (w h : Nat) (rng0 : Nat) : CoverImg × Nat :=
  let _ := rng0
  let p := coverPaletteFor style
  let s0 := strHash style + 42
  let cs := drawCircles 0 w 0 h 40 120 5 s0
  (⟨w, h, p.1, p.2.1, p.2.2.1, p.2.2.2, cs.1⟩, cs.2)

/-- The external oracles consumed by generate_carousel_pdf: the per-font stringWidth metrics of the canvas, the generated_images mapping produced by the fetch phase, the batch translation call, and the Gemini condensing call. -/
structure Oracles where
  sw36 : String → Nat
  sw20 : String → Nat
  sw18 : String → Nat
  imgs : String → Option ImgBytes
  transSvc : Except String String
  condense : String → Nat → Option String

/-- The cover page as drawn: letter-size, scheme, all title lines, Spanish subtitle lines, image. -/
structure CoverPage where
  pageW : Nat
  pageH : Nat
  scheme : ColorScheme
  titleLines : List String
  esLines : List String
  img : PageImg
deriving DecidableEq

/-- Body of a slide page: bilingual columns or centered monolingual bullets. -/
inductive SlideBody
  | bilingual (enLines esLines : List String)
  | mono (bullets : List String)
deriving DecidableEq

/-- One content slide page as drawn. -/
structure SlidePage where
  pageW : Nat
  pageH : Nat
  scheme : ColorScheme
  indexNum : Nat
  indexDen : Nat
  titleLines : List String
  esTitle : Option String
  img : PageImg
  body : SlideBody
deriving DecidableEq

/-- One emitted page of the document. -/
inductive Page
  | cover (p : CoverPage)
  | slide (idx : Nat) (p : SlidePage)
deriving DecidableEq

/-- Page size of an emitted page. -/
def Page.dims : Page → Nat × Nat
  | .cover p => (p.pageW, p.pageH)
  | .slide _ p => (p.pageW, p.pageH)

/-- Embeds the slide-title resolution of generate_carousel_pdf: auto-generated or missing titles are synthesized from the content, overlong titles are condensed. -/
def slideDisplayTitle (o : Oracles) (s : Slide) : String :=
  if s.title = "" ∨ pyStartsWith s.title "Key Point" = true then
    createSummaryTitle o.condense (if s.content_en ≠ "" then s.content_en else s.content) 65
  else if s.title.length > 65 then createSummaryTitle o.condense s.title 65
  else s.title

/-- Embeds the cover-title resolution: titles over 70 characters are condensed. -/
def coverDisplayTitle (o : Oracles) (title : String) : String :=
  if title.length ≤ 70 then title else createSummaryTitle o.condense title 70

/-- Embeds the bilingual-body draw loop: lines are drawn top down, stripped, 16 points apart, stopping before y falls under 100. -/
def drawWrapped : List String → Int → List String
  | [], _ => []
  | l :: rest, y => if y < 100 then [] else trimS l :: drawWrapped rest (y - 16)

/-- Embeds the sentence test used before the bilingual columns. -/
def endsSentence (s : String) : Bool :=
  match s.data.getLast? with
  | some c => c = '.' || c = '!' || c = '?'
  | none => false

/-- Embeds the period appending before the bilingual columns. -/
def ensureDot (s : String) : String :=
  if s ≠ "" ∧ endsSentence s = false then s ++ "." else s

/-- Embeds the monolingual content choice: the content field if present, else content_en, else content_es. -/
def monoContent (s : Slide) : String :=
  if s.content ≠ "" then s.content
  else if s.content_en ≠ "" then s.content_en
  else s.content_es

/-- Embeds one iteration of the slide loop of generate_carousel_pdf. -/
def mkSlidePage (o : Oracles) (scheme : ColorScheme) (style : String)
    (assigns : List (Nat × String)) (total idx : Nat) (s : Slide) : SlidePage :=
  let dispTitle := slideDisplayTitle o s
  let tLines := (slideTitleWrap o.sw20 dispTitle).take 2
  let titleY : Int := (792 - 40) - 26 * tLines.length
  let isBi : Bool := (s.content_en != "") && (s.content_es != "")
  let esTitle := if isBi then some ((assigns.lookup idx).getD dispTitle) else none
  let titleY2 : Int := if isBi then titleY - 25 else titleY
  let imageStartY : Int := titleY2 - 15
  let img := resolveSlideImg style (o.imgs ("slide_" ++ toString idx))
  let contentStartY : Int := imageStartY - img.h - 50
  let body :=
    if isBi then
      SlideBody.bilingual
        (drawWrapped (wrapText (ensureDot s.content_en) 28) (contentStartY - 10))
        (drawWrapped (wrapText (ensureDot s.content_es) 28) (contentStartY - 10))
    else SlideBody.mono ((formatAsBullets (monoContent s)).take 10)
  ⟨612, 792, scheme, idx + 1, total, tLines, esTitle, img, body⟩

/-- Embeds the cover-page portion of generate_carousel_pdf (the vertical layout positions, which no claim concerns, are not recorded). -/
def mkCoverPage (o : Oracles) (scheme : ColorScheme) (style : String) (bilingual : Bool)
    (coverTitle coverEs : String) : CoverPage :=
  let tLines := wrapTitle o.sw36 (612 - 100) coverTitle
  let esLines := if bilingual && (coverEs != "") then esSubtitleLines o.sw18 coverEs else []
  let img := resolveCoverImg style (o.imgs "cover")
  ⟨612, 792, scheme, tLines, esLines, img⟩

/-- Embeds generate_carousel_pdf as the ordered list of pages it emits on the letter-size canvas. -/
def generateCarouselPdf (o : Oracles) (slides : List Slide) (title style : String) :
    List Page :=
  let scheme := colorSchemeFor style
  let bilingual := isBilingualCarousel slides
  let coverTitle := coverDisplayTitle o title
  let tp := translationPhase bilingual coverTitle slides o.transSvc
  Page.cover (mkCoverPage o scheme style bilingual coverTitle tp.2.1) ::
    (slides.enum.map fun p =>
      Page.slide p.1 (mkSlidePage o scheme style tp.2.2 slides.length p.1 p.2))

/-! Helper lemmas shared by the claim theorems. -/

theorem concatAll_append (a b : List (List String)) :
    concatAll (a ++ b) = concatAll a ++ concatAll b := by
  induction a with
  | nil => simp [concatAll]
  | cons l ls ih => simp [concatAll, ih]

theorem wrapWordsAux_concat (sw : String → Nat) (maxW : Nat) :
    ∀ (ws curr : List String), concatAll (wrapWordsAux sw maxW ws curr) = curr ++ ws := by
  intro ws
  induction ws with
  | nil =>
    intro curr
    by_cases h : curr.isEmpty
    · simp [wrapWordsAux, h, List.isEmpty_iff.mp h, concatAll]
    · simp [wrapWordsAux, h, concatAll]
  | cons w tl ih =>
    intro curr
    by_cases h1 : sw (joinSpace (curr ++ [w])) ≤ maxW
    · simp [wrapWordsAux, h1, ih]
    · by_cases h2 : curr.isEmpty
      · simp [wrapWordsAux, h1, h2, ih, List.isEmpty_iff.mp h2]
      · simp [wrapWordsAux, h1, h2, ih, concatAll]

theorem genImageSig_imagen (m : String) (h : genImageSig m = true) : imagenSig m = true := by
  unfold genImageSig at h
  unfold imagenSig
  rcases Bool.or_eq_true_iff.mp h with h1 | h1 <;> simp [h1]

/-- The arithmetic shape of the pause list emitted from a given attempt index. -/
def sleepList (attempt n : Nat) : List Nat :=
  (List.range n).map (fun i => 2 * (attempt + 1 + i))

theorem sleepList_succ (attempt n : Nat) :
    sleepList attempt (n + 1) = 2 * (attempt + 1) :: sleepList (attempt + 1) n := by
  unfold sleepList
  rw [List.range_succ_eq_map, List.map_cons, List.map_map]
  refine congrArg₂ List.cons (by omega) ?_
  apply List.map_congr_left
  intro i _
  simp only [Function.comp_apply]
  omega

theorem genImageFrom_shape (ext : Nat → ExtResult) :
    ∀ (fuel attempt : Nat), (genImageFrom ext attempt fuel).calls ≤ fuel ∧
      ∃ n, n ≤ fuel ∧ (genImageFrom ext attempt fuel).sleeps = sleepList attempt n := by
  intro fuel
  induction fuel with
  | zero => intro attempt; exact ⟨Nat.le_refl 0, 0, Nat.le_refl 0, rfl⟩
  | succ f ih =>
    intro attempt
    cases hx : generateRealisticImage (ext attempt) with
    | ok b =>
      refine ⟨?_, 0, by omega, ?_⟩ <;> simp [genImageFrom, hx, sleepList]
    | error msg =>
      by_cases hs : genImageSig msg
      · obtain ⟨hc, n, hn, hsl⟩ := ih (attempt + 1)
        refine ⟨?_, n + 1, by omega, ?_⟩
        · simp only [genImageFrom, hx, hs, if_true]
          simpa using Nat.add_le_add_right hc 1
        · simp only [genImageFrom, hx, hs, if_true, sleepList_succ]
          simp [hsl]
      · refine ⟨?_, 0, by omega, ?_⟩ <;> simp [genImageFrom, hx, hs, sleepList]

theorem genImageRun_rateLimited (ext : Nat → ExtResult)
    (h : ∀ i, i < 3 → ∃ m, ext i = ExtResult.err m ∧ genImageSig m = true) :
    genImageRun ext = ⟨3, [2, 4, 6], none⟩ := by
  obtain ⟨m0, e0, s0⟩ := h 0 (by omega)
  obtain ⟨m1, e1, s1⟩ := h 1 (by omega)
  obtain ⟨m2, e2, s2⟩ := h 2 (by omega)
  have i0 := genImageSig_imagen m0 s0
  have i1 := genImageSig_imagen m1 s1
  have i2 := genImageSig_imagen m2 s2
  simp [genImageRun, genImageFrom, generateRealisticImage, e0, e1, e2, i0, i1, i2, s0, s1, s2]

theorem fetchAll_lookup_none (ext : String → Nat → ExtResult) (keys : List String) (k : String)
    (h : (genImageRun (ext k)).result = none) :
    (fetchAllResult ext keys).lookup k = none := by
  induction keys with
  | nil => rfl
  | cons k2 t ih =>
    unfold fetchAllResult at ih ⊢
    rw [List.filterMap_cons]
    cases hr : (genImageRun (ext k2)).result with
    | none => simpa using ih
    | some b =>
      have hne : (k == k2) = false := by
        rcases eq_or_ne k k2 with rfl | hne
        · rw [h] at hr; cases hr
        · simp [hne]
      simp only [Option.map_some']
      rw [List.lookup_cons]
      simp [hne, ih]

theorem fetchAll_lookup_some (ext : String → Nat → ExtResult) (keys : List String)
    (k : String) (b : ImgBytes) (h : (genImageRun (ext k)).result = some b) (hk : k ∈ keys) :
    (fetchAllResult ext keys).lookup k = some b := by
  induction keys with
  | nil => cases hk
  | cons k2 t ih =>
    unfold fetchAllResult at ih ⊢
    rw [List.filterMap_cons]
    rcases eq_or_ne k k2 with rfl | hne
    · rw [h]
      simp [List.lookup]
    · have hmem : k ∈ t := by
        rcases List.mem_cons.mp hk with rfl | hmem
        · exact absurd rfl hne
        · exact hmem
      cases hr : (genImageRun (ext k2)).result with
      | none => simpa using ih hmem
      | some b2 =>
        simp only [Option.map_some']
        rw [List.lookup_cons]
        simp [(by simp [hne] : (k == k2) = false), ih hmem]

theorem assignEs_length (lines : List String) :
    ∀ (slides : List Slide) (idx tIdx : Nat),
      (assignEs slides idx tIdx lines).length =
        min (eligibleTitles slides).length (lines.length - tIdx) := by
  intro slides
  induction slides with
  | nil => intro idx tIdx; simp [assignEs, eligibleTitles]
  | cons s t ih =>
    intro idx tIdx
    have hel : (eligibleTitles (s :: t)).length =
        (if s.title ≠ "" ∧ pyStartsWith s.title "Key Point" = false then 1 else 0) +
          (eligibleTitles t).length := by
      by_cases he : s.title ≠ "" ∧ pyStartsWith s.title "Key Point" = false
      · simp only [eligibleTitles, List.filterMap_cons, if_pos he, List.length_cons]
        omega
      · simp only [eligibleTitles, List.filterMap_cons, if_neg he]
        omega
    simp only [assignEs]
    split
    next hcond =>
      rw [List.length_cons, ih, hel, if_pos ⟨hcond.1, hcond.2.1⟩]
      have := hcond.2.2
      omega
    next hcond =>
      rw [ih, hel]
      by_cases he : s.title ≠ "" ∧ pyStartsWith s.title "Key Point" = false
      · have ht : ¬ tIdx < lines.length := fun ht => hcond ⟨he.1, he.2, ht⟩
        rw [if_pos he]
        omega
      · rw [if_neg he]
        omega

/-! Concrete inputs used by the witnesses and counterexamples. -/

/-- A fixed font-metric stub of 6 pixels per character together with a fully failing external world, used by witnesses. -/
def wOracles : Oracles :=
  ⟨fun s => 6 * s.length, fun s => 6 * s.length, fun s => 6 * s.length,
   fun _ => none, Except.error "api down", fun _ _ => none⟩

/-- A concrete monolingual slide used by witnesses. -/
def wSlide : Slide := ⟨"Point A", "Revenue grew 12 percent this quarter.", "", ""⟩

/-! The claim theorems. -/

/-- C1: generate_carousel_pdf emits exactly N+1 letter-size (612 by 792) pages: one cover page followed by one slide page per input slide, in slide-list order (page i+1 is built from slide i). -/
theorem c1_page_count (o : Oracles) (slides : List Slide) (title style : String) :
    (generateCarouselPdf o slides title style).length = slides.length + 1 ∧
    (∀ p ∈ generateCarouselPdf o slides title style, p.dims = (612, 792)) ∧
    (∃ cp, (generateCarouselPdf o slides title style).head? = some (Page.cover cp)) ∧
    (∀ (i : Nat) (h : i < slides.length),
      (generateCarouselPdf o slides title style)[i + 1]? =
        some (Page.slide i (mkSlidePage o (colorSchemeFor style) style
          (translationPhase (isBilingualCarousel slides) (coverDisplayTitle o title) slides
            o.transSvc).2.2 slides.length i slides[i]))) := by
  refine ⟨?_, ?_, ⟨_, rfl⟩, ?_⟩
  · simp [generateCarouselPdf]
  · intro p hp
    simp only [generateCarouselPdf, List.mem_cons, List.mem_map] at hp
    rcases hp with rfl | ⟨q, hq, rfl⟩
    · rfl
    · rfl
  · intro i h
    simp only [generateCarouselPdf, List.getElem?_cons_succ, List.getElem?_map, List.enum,
      List.getElem?_enumFrom, List.getElem?_eq_getElem h, Option.map_some', Nat.zero_add]

/-- Witness for C1 at a concrete 1-slide carousel: 2 pages, page 1 built from slide 0. -/
theorem c1_page_count_witness :
    (generateCarouselPdf wOracles [wSlide] "Q3 Growth" "minimal").length = 2 ∧
    (generateCarouselPdf wOracles [wSlide] "Q3 Growth" "minimal")[1]? =
      some (Page.slide 0 (mkSlidePage wOracles (colorSchemeFor "minimal") "minimal"
        (translationPhase (isBilingualCarousel [wSlide]) (coverDisplayTitle wOracles "Q3 Growth")
          [wSlide] wOracles.transSvc).2.2 1 0 wSlide)) :=
  ⟨(c1_page_count wOracles [wSlide] "Q3 Growth" "minimal").1,
   (c1_page_count wOracles [wSlide] "Q3 Growth" "minimal").2.2.2 0 (by decide)⟩

/-- C2: each attempt of the _gen_image worker makes exactly one external call, for at most 3 total attempts; the i-th pause is 2*(i+1) seconds; a rate-limited failure (429 or quota keyword) on every attempt gives 3 calls with pauses 2, 4, 6 seconds and no resolved image; a first-attempt failure without that signature ends the job after exactly one external call with no pause. -/
theorem c2_retry_policy (ext : Nat → ExtResult) :
    (genImageRun ext).calls ≤ 3 ∧
    (genImageRun ext).sleeps =
      (List.range (genImageRun ext).sleeps.length).map (fun i => 2 * (i + 1)) ∧
    (∀ m, ext 0 = ExtResult.err m → genImageSig m = false →
      (genImageRun ext).calls = 1 ∧ (genImageRun ext).sleeps = []) ∧
    ((∀ i, i < 3 → ∃ m, ext i = ExtResult.err m ∧ genImageSig m = true) →
      genImageRun ext = ⟨3, [2, 4, 6], none⟩) := by
  obtain ⟨hc, n, hn, hs⟩ := genImageFrom_shape ext 3 0
  refine ⟨hc, ?_, ?_, genImageRun_rateLimited ext⟩
  · rw [show genImageRun ext = genImageFrom ext 0 3 from rfl, hs]
    simp only [sleepList, List.length_map, List.length_range]
    apply List.map_congr_left
    intro i _
    omega
  · intro m h0 hsig
    by_cases hi : imagenSig m
    · constructor <;> simp [genImageRun, genImageFrom, generateRealisticImage, h0, hi, hsig]
    · constructor <;> simp [genImageRun, genImageFrom, generateRealisticImage, h0, hi]

/-- Witness for C2: a non-quota failure makes one call with no pauses; an all-429 job runs 3 calls with pauses 2, 4, 6. -/
theorem c2_retry_policy_witness :
    genImageSig "boom" = false ∧
    (genImageRun (fun _ => ExtResult.err "boom")).calls = 1 ∧
    (genImageRun (fun _ => ExtResult.err "boom")).sleeps = [] ∧
    genImageRun (fun _ => ExtResult.err "HTTP 429") = ⟨3, [2, 4, 6], none⟩ :=
  ⟨by decide,
   ((c2_retry_policy (fun _ => ExtResult.err "boom")).2.2.1 "boom" rfl (by decide)).1,
   ((c2_retry_policy (fun _ => ExtResult.err "boom")).2.2.1 "boom" rfl (by decide)).2,
   (c2_retry_policy (fun _ => ExtResult.err "HTTP 429")).2.2.2
     (fun i _ => ⟨"HTTP 429", rfl, by decide⟩)⟩

/-- C3: a job whose external call fails with the 429/quota rate-limit signature on all 3 attempts has no entry in the result mapping, and the composed page then uses the style-conditioned gradient placeholder sized to the image box: at most 65 by 28 percent of the letter page for a slide, at most 85 by 40 percent for the cover. -/
theorem c3_rate_limited_placeholder (ext : String → Nat → ExtResult) (keys : List String)
    (k style : String)
    (h : ∀ i, i < 3 → ∃ m, ext k i = ExtResult.err m ∧ genImageSig m = true) :
    (fetchAllResult ext keys).lookup k = none ∧
    resolveSlideImg style ((fetchAllResult ext keys).lookup k) =
      ⟨slideBoxW, slideBoxH, ImgSrc.themed style⟩ ∧
    slideBoxW * 100 ≤ letterW * 65 ∧ slideBoxH * 100 ≤ letterH * 28 ∧
    resolveCoverImg style ((fetchAllResult ext keys).lookup k) =
      ⟨coverGenW, coverGenH, ImgSrc.coverGrad style⟩ ∧
    coverGenW * 100 ≤ letterW * 85 ∧ coverGenH * 100 ≤ letterH * 40 := by
  have hres : (genImageRun (ext k)).result = none := by
    rw [genImageRun_rateLimited (ext k) h]
  have hlk := fetchAll_lookup_none ext keys k hres
  refine ⟨hlk, ?_, by decide, by decide, ?_, by decide, by decide⟩
  · rw [hlk]
    rfl
  · rw [hlk]
    have hthumb : thumbDims coverGenW coverGenH coverMaxW coverMaxH =
        (coverGenW, coverGenH) := by decide
    simp [resolveCoverImg, hthumb]

/-- Witness for C3 on a job rate-limited on all attempts: missing key and box-sized themed placeholder. -/
theorem c3_witness :
    (fetchAllResult (fun _ _ => ExtResult.err "429 RESOURCE_EXHAUSTED")
      ["cover", "slide_0"]).lookup "slide_0" = none ∧
    resolveSlideImg "creative"
      ((fetchAllResult (fun _ _ => ExtResult.err "429 RESOURCE_EXHAUSTED")
        ["cover", "slide_0"]).lookup "slide_0") =
      ⟨slideBoxW, slideBoxH, ImgSrc.themed "creative"⟩ :=
  ⟨(c3_rate_limited_placeholder (fun _ _ => ExtResult.err "429 RESOURCE_EXHAUSTED")
      ["cover", "slide_0"] "slide_0" "creative"
      (fun i _ => ⟨"429 RESOURCE_EXHAUSTED", rfl, by decide⟩)).1,
   (c3_rate_limited_placeholder (fun _ _ => ExtResult.err "429 RESOURCE_EXHAUSTED")
      ["cover", "slide_0"] "slide_0" "creative"
      (fun i _ => ⟨"429 RESOURCE_EXHAUSTED", rfl, by decide⟩)).2.1⟩

/-- C4: if the batched title translation raises, the phase returns the English cover title and no slide assignments without propagating the exception; a successful call maps at most lines-1 slide slots (exactly the minimum of the eligible-title count and lines-1), so a short reply leaves later slots unmapped; and a bilingual slide whose slot is unmapped renders its English display title. -/
theorem c4_translation_fallback (coverTitle : String) (slides : List Slide) (e res : String)
    (o : Oracles) (scheme : ColorScheme) (style : String) (total idx : Nat) (s : Slide) :
    translationPhase true coverTitle slides (Except.error e) = (true, coverTitle, []) ∧
    (assignEs slides 0 1 (parseLines res)).length =
      min (eligibleTitles slides).length ((parseLines res).length - 1) ∧
    (s.content_en ≠ "" → s.content_es ≠ "" →
      (mkSlidePage o scheme style [] total idx s).esTitle = some (slideDisplayTitle o s)) := by
  refine ⟨rfl, assignEs_length (parseLines res) slides 0 1, ?_⟩
  intro h1 h2
  simp [mkSlidePage, h1, h2, List.lookup]

/-- Witness for C4 at a concrete bilingual slide with a failing translation call. -/
theorem c4_translation_fallback_witness :
    translationPhase true "Q3 Growth" [⟨"Point A", "", "Hello there.", "Hola amigo."⟩]
      (Except.error "api down") = (true, "Q3 Growth", []) ∧
    (mkSlidePage wOracles professionalScheme "professional" [] 1 0
      ⟨"Point A", "", "Hello there.", "Hola amigo."⟩).esTitle =
      some (slideDisplayTitle wOracles ⟨"Point A", "", "Hello there.", "Hola amigo."⟩) :=
  ⟨(c4_translation_fallback "Q3 Growth" [⟨"Point A", "", "Hello there.", "Hola amigo."⟩]
      "api down" "x" wOracles professionalScheme "professional" 1 0
      ⟨"Point A", "", "Hello there.", "Hola amigo."⟩).1,
   (c4_translation_fallback "Q3 Growth" [⟨"Point A", "", "Hello there.", "Hola amigo."⟩]
      "api down" "x" wOracles professionalScheme "professional" 1 0
      ⟨"Point A", "", "Hello there.", "Hola amigo."⟩).2.2 (by decide) (by decide)⟩

/-- A fixed stub metric of 20 pixels per character, standing for Helvetica-Bold 36 widths. -/
def cexSw (s : String) : Nat := 20 * s.length

/-- Oracles for the C5 counterexample: stub metric, failing external services. -/
def cexOracles : Oracles :=
  ⟨cexSw, cexSw, cexSw, fun _ => none, Except.error "service down", fun _ _ => none⟩

/-- A 62-character cover title of three 20-character words. -/
def cexCoverTitle : String :=
  "aaaaaaaaaaaaaaaaaaaa bbbbbbbbbbbbbbbbbbbb cccccccccccccccccccc"

/-- C5 counterexample: with a fixed 20-pixels-per-character metric stub and a 62-character title (used verbatim, being under 70 characters), the cover page draws 3 title lines, refuting the 2-line cap the claim asserts for every page of the document. -/
theorem c5_counterexample :
    ∃ cp, (generateCarouselPdf cexOracles [] cexCoverTitle "professional").head? =
      some (Page.cover cp) ∧ cp.titleLines.length = 3 := by
  refine ⟨_, rfl, ?_⟩
  decide

/-- C5 amended: on every slide page the displayed title is greedily word-wrapped and hard-truncated to at most 2 drawn lines, whose words form a prefix of the wrapped word sequence (the greedy wrap preserving the word list); the cover page greedily wraps its title against the page budget but draws every wrapped line, with no 2-line cap. -/
theorem c5_title_wrap_amended (o : Oracles) (scheme : ColorScheme) (style : String)
    (assigns : List (Nat × String)) (total idx : Nat) (s : Slide)
    (bilingual : Bool) (coverTitle coverEs : String) :
    (mkSlidePage o scheme style assigns total idx s).titleLines =
      (slideTitleWrap o.sw20 (slideDisplayTitle o s)).take 2 ∧
    (mkSlidePage o scheme style assigns total idx s).titleLines.length ≤ 2 ∧
    concatAll (wrapWordsAux o.sw20 520 (pyWords (slideDisplayTitle o s)) []) =
      pyWords (slideDisplayTitle o s) ∧
    (∃ kk, concatAll ((wrapWordsAux o.sw20 520 (pyWords (slideDisplayTitle o s)) []).take 2) =
      (pyWords (slideDisplayTitle o s)).take kk) ∧
    (mkCoverPage o scheme style bilingual coverTitle coverEs).titleLines =
      wrapTitle o.sw36 (612 - 100) coverTitle := by
  refine ⟨rfl, ?_, wrapWordsAux_concat o.sw20 520 (pyWords (slideDisplayTitle o s)) [], ?_, rfl⟩
  · show ((slideTitleWrap o.sw20 (slideDisplayTitle o s)).take 2).length ≤ 2
    simp [List.length_take]
  · have hall : concatAll (wrapWordsAux o.sw20 520 (pyWords (slideDisplayTitle o s)) []) =
        pyWords (slideDisplayTitle o s) :=
      wrapWordsAux_concat o.sw20 520 (pyWords (slideDisplayTitle o s)) []
    have hsplit : concatAll ((wrapWordsAux o.sw20 520 (pyWords (slideDisplayTitle o s)) []).take 2)
        ++ concatAll ((wrapWordsAux o.sw20 520 (pyWords (slideDisplayTitle o s)) []).drop 2) =
        pyWords (slideDisplayTitle o s) := by
      rw [← concatAll_append, List.take_append_drop, hall]
    have hpref : concatAll ((wrapWordsAux o.sw20 520 (pyWords (slideDisplayTitle o s)) []).take 2)
        <+: pyWords (slideDisplayTitle o s) :=
      ⟨concatAll ((wrapWordsAux o.sw20 520 (pyWords (slideDisplayTitle o s)) []).drop 2), hsplit⟩
    exact ⟨_, List.prefix_iff_eq_take.mp hpref⟩

/-- C6 counterexample: for the unknown style funky the descriptor falls back to the raw dictionary default professional, so the claimed professional descriptor phrase appears in no image prompt. -/
theorem c6_counterexample :
    styleDescFor "funky" = "professional" ∧
    strContains (coverPrompt "funky" "Launch") "clean, modern, professional business" = false ∧
    coverPrompt "funky" "Launch" =
      "Photorealistic, professional aesthetic, high-quality image representing: Launch. 16:9 aspect ratio, no text or words in image." :=
  ⟨by decide, by decide, by decide⟩

/-- C6 amended: an unknown style raises no error and falls back to the professional color scheme, and every image prompt uses the dictionary default descriptor string professional (not the professional descriptor phrase). -/
theorem c6_unknown_style_amended (style title : String) (s : Slide) (h : style ∉ styleNames) :
    colorSchemeFor style = professionalScheme ∧
    styleDescFor style = "professional" ∧
    coverPrompt style title =
      "Photorealistic, professional aesthetic, high-quality image representing: " ++
        (if title.length ≤ 70 then title else takeChars title 70) ++
        ". 16:9 aspect ratio, no text or words in image." ∧
    slidePrompt style s =
      "Photorealistic, professional aesthetic, high-quality image for: " ++
        (if s.title ≠ "" then s.title
         else takeChars (if s.content_en ≠ "" then s.content_en else s.content) 80) ++
        ". Professional, clean, no text or words in image." ∧
    (∀ (o : Oracles) (slides : List Slide),
      ∃ cp, (generateCarouselPdf o slides title style).head? = some (Page.cover cp) ∧
        cp.scheme = professionalScheme) := by
  simp only [styleNames, List.mem_cons, List.not_mem_nil, or_false, not_or] at h
  obtain ⟨h1, h2, h3, h4, h5⟩ := h
  have e1 : (style == "professional") = false := beq_eq_false_iff_ne.mpr h1
  have e2 : (style == "relaxed") = false := beq_eq_false_iff_ne.mpr h2
  have e3 : (style == "corporate") = false := beq_eq_false_iff_ne.mpr h3
  have e4 : (style == "creative") = false := beq_eq_false_iff_ne.mpr h4
  have e5 : (style == "minimal") = false := beq_eq_false_iff_ne.mpr h5
  have hcs : colorSchemeFor style = professionalScheme := by
    simp [colorSchemeFor, stylesTable, List.lookup, e1, e2, e3, e4, e5]
  have hd : styleDescFor style = "professional" := by
    simp [styleDescFor, styleDescTable, List.lookup, e1, e2, e3, e4, e5]
  refine ⟨hcs, hd, ?_, ?_, ?_⟩
  · simp [coverPrompt, hd]
  · simp [slidePrompt, hd]
  · intro o slides
    refine ⟨_, rfl, ?_⟩
    show colorSchemeFor style = professionalScheme
    exact hcs

/-- Witness for C6 amended at the unknown style funky. -/
theorem c6_unknown_style_witness :
    colorSchemeFor "funky" = professionalScheme ∧
    styleDescFor "funky" = "professional" :=
  ⟨(c6_unknown_style_amended "funky" "Launch" wSlide (by decide)).1,
   (c6_unknown_style_amended "funky" "Launch" wSlide (by decide)).2.1⟩

/-- C7 counterexample: the code splits only on period-space and newline, so a question mark does not split; on this input the code keeps a single unit where the split described by the claim yields two. -/
theorem c7_counterexample :
    formatAsBullets "Is this real? Absolutely certain." =
      ["Is this real? Absolutely certain."] ∧
    specFormatAsBullets "Is this real? Absolutely certain." =
      ["Is this real.", "Absolutely certain."] ∧
    formatAsBullets "Is this real? Absolutely certain." ≠
      specFormatAsBullets "Is this real? Absolutely certain." :=
  ⟨by decide, by decide, by decide⟩

/-- C7 amended: monolingual content is split on period-followed-by-space and newline (not on other sentence terminators); every kept unit has at least 11 characters and ends with one of period, exclamation mark, question mark or semicolon (a period is appended when missing); at most 10 units are kept and the slide body draws exactly those kept units. -/
theorem c7_bullets_amended (text : String) (o : Oracles) (scheme : ColorScheme) (style : String)
    (assigns : List (Nat × String)) (total idx : Nat) (s : Slide) :
    (formatAsBullets text).length ≤ 10 ∧
    (∀ b ∈ formatAsBullets text, 11 ≤ b.length ∧ endsTerminal b = true) ∧
    (s.content_en = "" ∨ s.content_es = "" →
      (mkSlidePage o scheme style assigns total idx s).body =
        SlideBody.mono ((formatAsBullets (monoContent s)).take 10)) := by
  refine ⟨?_, ?_, ?_⟩
  · unfold formatAsBullets
    split
    · simp
    · exact List.length_take_le 10 _
  · intro b hb
    unfold formatAsBullets at hb
    split at hb
    · cases hb
    · have hb2 := List.mem_of_mem_take hb
      obtain ⟨l, hl, hfl⟩ := List.mem_filterMap.mp hb2
      by_cases hlen : l.length > 10
      · rw [if_pos hlen] at hfl
        have hfl2 := Option.some.inj hfl
        by_cases he : endsTerminal l
        · rw [if_pos he] at hfl2
          subst hfl2
          exact ⟨by omega, he⟩
        · rw [if_neg he] at hfl2
          subst hfl2
          constructor
          · have : ("." : String).length = 1 := rfl
            rw [String.length_append, this]
            omega
          · unfold endsTerminal
            rw [String.data_append, (rfl : ("." : String).data = ['.']), List.getLast?_concat]
            rfl
      · rw [if_neg hlen] at hfl
        cases hfl
  · intro hmono
    have hbi : ((s.content_en != "") && (s.content_es != "")) = false := by
      rcases hmono with h | h <;> simp [h]
    simp [mkSlidePage, hbi]

/-- Witness for C7 amended at a concrete two-sentence content and the concrete monolingual slide. -/
theorem c7_bullets_witness :
    (formatAsBullets "Revenue grew fast. Margins improved a lot. Ok.").length ≤ 10 ∧
    (11 ≤ ("Revenue grew fast.").length ∧ endsTerminal "Revenue grew fast." = true) ∧
    (mkSlidePage wOracles professionalScheme "professional" [] 1 0 wSlide).body =
      SlideBody.mono ((formatAsBullets (monoContent wSlide)).take 10) :=
  ⟨(c7_bullets_amended "Revenue grew fast. Margins improved a lot. Ok." wOracles
      professionalScheme "professional" [] 1 0 wSlide).1,
   (c7_bullets_amended "Revenue grew fast. Margins improved a lot. Ok." wOracles
      professionalScheme "professional" [] 1 0 wSlide).2.1 "Revenue grew fast." (by decide),
   (c7_bullets_amended "Revenue grew fast. Margins improved a lot. Ok." wOracles
      professionalScheme "professional" [] 1 0 wSlide).2.2 (Or.inl rfl)⟩

/-- C8: the carousel-level bilingual flag is true iff the slide list is non-empty and slide 0 has both content_en and content_es non-empty; it ignores every later slide; and it alone decides whether the batched translation call is issued. -/
theorem c8_bilingual_flag (slides : List Slide) (s : Slide) (rest rest2 : List Slide)
    (coverTitle : String) (svc : Except String String) :
    (isBilingualCarousel slides = true ↔
      ∃ s0 tl, slides = s0 :: tl ∧ s0.content_en ≠ "" ∧ s0.content_es ≠ "") ∧
    isBilingualCarousel (s :: rest) = isBilingualCarousel (s :: rest2) ∧
    (translationPhase (isBilingualCarousel slides) coverTitle slides svc).1 =
      isBilingualCarousel slides := by
  refine ⟨?_, rfl, ?_⟩
  · cases slides with
    | nil => simp [isBilingualCarousel]
    | cons s0 tl =>
      simp only [isBilingualCarousel, Bool.and_eq_true, bne_iff_ne]
      constructor
      · rintro ⟨hh1, hh2⟩
        exact ⟨s0, tl, rfl, hh1, hh2⟩
      · rintro ⟨s1, tl1, heq, hh1, hh2⟩
        obtain ⟨rfl, rfl⟩ := List.cons.inj heq
        exact ⟨hh1, hh2⟩
  · cases hb : isBilingualCarousel slides
    · rfl
    · cases svc <;> rfl

/-- Witness for C8: the flag holds for a bilingual slide 0, and replacing the tail does not change it. -/
theorem c8_bilingual_flag_witness :
    isBilingualCarousel [⟨"T", "", "en", "es"⟩, ⟨"U", "c", "", ""⟩] = true ∧
    isBilingualCarousel [⟨"T", "", "en", "es"⟩] =
      isBilingualCarousel [⟨"T", "", "en", "es"⟩, ⟨"U", "c", "x", "y"⟩] :=
  ⟨(c8_bilingual_flag [⟨"T", "", "en", "es"⟩, ⟨"U", "c", "", ""⟩] ⟨"T", "", "en", "es"⟩ [] []
      "t" (Except.error "x")).1.mpr
      ⟨⟨"T", "", "en", "es"⟩, [⟨"U", "c", "", ""⟩], rfl, by decide, by decide⟩,
   (c8_bilingual_flag [] ⟨"T", "", "en", "es"⟩ [] [⟨"U", "c", "x", "y"⟩] "t"
      (Except.error "x")).2.1⟩

/-- C9: the themed and cover gradient generators reseed the random module from the style name before drawing, so their entire output (image and final generator state) is independent of the ambient random state: two calls with identical arguments are identical. -/
theorem c9_placeholder_deterministic (style : String) (w h r1 r2 : Nat) :
    themedGradientGen style w h r1 = themedGradientGen style w h r2 ∧
    coverGradientGen style w h r1 = coverGradientGen style w h r2 :=
  ⟨rfl, rfl⟩

/-- C10: a failure without the 429/quota/RESOURCE_EXHAUSTED signature makes generate_realistic_image return the fixed 1200x675 style-independent gradient fallback instead of raising, so the worker resolves on its single call, the key is present in the result mapping with those bytes, and the themed placeholder is not applied for that job. -/
theorem c10_nonratelimit_fallback (ext : String → Nat → ExtResult) (keys : List String)
    (k m style : String) (hk : k ∈ keys)
    (h0 : ext k 0 = ExtResult.err m) (hsig : imagenSig m = false) :
    generateRealisticImage (ExtResult.err m) = Except.ok ImgBytes.fallbackGradient ∧
    ImgBytes.fallbackGradient.dims = (1200, 675) ∧
    (genImageRun (ext k)).calls = 1 ∧
    (fetchAllResult ext keys).lookup k = some ImgBytes.fallbackGradient ∧
    (resolveSlideImg style ((fetchAllResult ext keys).lookup k)).src =
      ImgSrc.fetched ImgBytes.fallbackGradient := by
  have hg : generateRealisticImage (ExtResult.err m) = Except.ok ImgBytes.fallbackGradient := by
    simp [generateRealisticImage, hsig]
  have hrun : genImageRun (ext k) = ⟨1, [], some ImgBytes.fallbackGradient⟩ := by
    simp [genImageRun, genImageFrom, h0, hg]
  have hlk : (fetchAllResult ext keys).lookup k = some ImgBytes.fallbackGradient :=
    fetchAll_lookup_some ext keys k ImgBytes.fallbackGradient (by rw [hrun]) hk
  refine ⟨hg, rfl, by rw [hrun], hlk, ?_⟩
  rw [hlk]
  rfl

/-- Witness for C10 at a concrete job failing with a plain backend error. -/
theorem c10_nonratelimit_fallback_witness :
    (fetchAllResult (fun _ _ => ExtResult.err "backend exploded") ["cover"]).lookup "cover" =
      some ImgBytes.fallbackGradient ∧
    (resolveSlideImg "relaxed"
      ((fetchAllResult (fun _ _ => ExtResult.err "backend exploded") ["cover"]).lookup
        "cover")).src = ImgSrc.fetched ImgBytes.fallbackGradient :=
  ⟨(c10_nonratelimit_fallback (fun _ _ => ExtResult.err "backend exploded") ["cover"] "cover"
      "backend exploded" "relaxed" (by decide) rfl (by decide)).2.2.2.1,
   (c10_nonratelimit_fallback (fun _ _ => ExtResult.err "backend exploded") ["cover"] "cover"
      "backend exploded" "relaxed" (by decide) rfl (by decide)).2.2.2.2⟩

end CarouselPdf
